import Mathlib

/-!
Verification of the Zebra camera client (`src/zebra/__main__.py`, `src/trigger.py`).

Bytes are modelled as `List Nat` (each element a byte value 0..255 where it
matters). Network and filesystem effects are modelled by explicit behaviour
parameters: the result of the control-channel connect/send step, the chunk
script delivered by the results channel, and whether the output file write
succeeds. Exceptions are modelled with `Except`.
-/

namespace Zebra

/-- Boolean test: does the second list start with the first?
Mirrors a byte-wise comparison of `sep` against the head of the buffer. -/
def listStarts {α : Type} [DecidableEq α] : List α → List α → Bool
  | [], _ => true
  | _ :: _, [] => false
  | a :: as, b :: bs => if a = b then listStarts as bs else false

/-- Left-to-right scan for the first occurrence of `sep` in a list.
Returns `some (before, after)` where the input is `before ++ sep ++ after`
and `sep` starts at the earliest possible position, or `none` when `sep`
does not occur. This is the scan underlying Python's `sep in b` membership
test and the first step of `b.split(sep)`. -/
def findSub {α : Type} [DecidableEq α] (sep : List α) : List α → Option (List α × List α)
  | [] => none
  | x :: xs =>
    if listStarts sep (x :: xs) then some ([], (x :: xs).drop sep.length)
    else (findSub sep xs).map (fun p => (x :: p.1, p.2))

/-- Boolean substring containment, as in Python's `sep in b` for bytes. -/
def containsSub {α : Type} [DecidableEq α] (sep xs : List α) : Bool :=
  (findSub sep xs).isSome

/-- The JPEG-in-base64 marker bytes `b"/9j/"` : ASCII 47, 57, 106, 47. -/
def marker : List Nat := [47, 57, 106, 47]

/-- Python `b"/9j/" in response` from line 50 of `__main__.py`. -/
def containsMarker (response : List Nat) : Bool := containsSub marker response

/-- One pass of Python's non-overlapping left-to-right `bytes.split(sep)`
loop, specialised to `sep = marker`, with explicit fuel so that the
function is structurally recursive (hence kernel-computable). `fuel`
strictly exceeding the buffer length is always sufficient, because each
found separator strictly shrinks the remaining buffer; see
`splitMarker_spec` below for the fuel-free characterisation. -/
def splitFrom (fuel : Nat) (xs : List Nat) : List (List Nat) :=
  match fuel with
  | 0 => [xs]
  | fuel + 1 =>
    match findSub marker xs with
    | none => [xs]
    | some (b, a) => b :: splitFrom fuel a

/-- Python `response.split(b"/9j/")` from line 63 of `__main__.py`. -/
def splitMarker (xs : List Nat) : List (List Nat) := splitFrom (xs.length + 1) xs

/-- Base64 value of an alphabet byte (`A-Z a-z 0-9 + /`), `none` otherwise.
Mirrors CPython's `table_a2b_base64`. -/
def b64Val (c : Nat) : Option Nat :=
  if 65 ≤ c ∧ c ≤ 90 then some (c - 65)
  else if 97 ≤ c ∧ c ≤ 122 then some (c - 97 + 26)
  else if 48 ≤ c ∧ c ≤ 57 then some (c - 48 + 52)
  else if c = 43 then some 62
  else if c = 47 then some 63
  else none

/-- The quad-wise decoding loop of CPython's `binascii.a2b_base64` in
non-strict mode (which is what `base64.b64decode` with default arguments
calls): invalid characters are skipped; a padding byte `=` seen at quad
position at least 2 that completes a pad sequence terminates decoding and
ignores the rest of the input; input ending at a nonzero quad position is
an error (`binascii.Error`), modelled as `none`. `acc` holds the output
bytes in reverse. -/
def a2bGo : List Nat → Nat → Nat → Nat → List Nat → Option (List Nat)
  | [], quadPos, _, _, acc => if quadPos = 0 then some acc.reverse else none
  | c :: rest, quadPos, leftchar, pads, acc =>
    if c = 61 then
      if 2 ≤ quadPos then
        if 4 ≤ quadPos + (pads + 1) then some acc.reverse
        else a2bGo rest quadPos leftchar (pads + 1) acc
      else a2bGo rest quadPos leftchar pads acc
    else
      match b64Val c with
      | none => a2bGo rest quadPos leftchar pads acc
      | some v =>
        match quadPos with
        | 0 => a2bGo rest 1 v 0 acc
        | 1 => a2bGo rest 2 (v % 16) 0 ((leftchar * 4 + v / 16) :: acc)
        | 2 => a2bGo rest 3 (v % 4) 0 ((leftchar * 16 + v / 4) :: acc)
        | _ => a2bGo rest 0 0 0 ((leftchar * 64 + v) :: acc)

/-- Python `base64.b64decode(s)` (default `validate=False`), returning
`none` when it raises `binascii.Error`. -/
def b64decodePy (s : List Nat) : Option (List Nat) := a2bGo s 0 0 0 []

/-- UTF-8 encoding of one character. -/
def utf8Bytes (c : Char) : List Nat :=
  let n := c.toNat
  if n < 128 then [n]
  else if n < 2048 then [192 + n / 64, 128 + n % 64]
  else if n < 65536 then [224 + n / 4096, 128 + (n / 64) % 64, 128 + n % 64]
  else [240 + n / 262144, 128 + (n / 4096) % 64, 128 + (n / 64) % 64, 128 + n % 64]

/-- Python `command.encode("utf-8")`. -/
def encodeUtf8 (s : String) : List Nat :=
  s.data.foldr (fun c acc => utf8Bytes c ++ acc) []

/-- Failure mode of one socket step, with the text of the underlying OS
error. `timeout` is Python's `socket.timeout`, `refused` is
`ConnectionRefusedError`, `reset` is `ConnectionResetError` (raised, e.g.,
when the peer resets an established connection). -/
inductive SockFail : Type where
  | timeout (cause : String)
  | refused (cause : String)
  | reset (cause : String)
deriving DecidableEq

/-- The Python exceptions that can escape the modelled code. In Python,
`ConnectionRefusedError` and `ConnectionResetError` are subclasses of
`ConnectionError`; `connectionError` below stands for the `ConnectionError`
instances raised explicitly by the code, and `connectionResetError` for a
raw OS-level reset (also a `ConnectionError` by subclassing). -/
inductive PyError : Type where
  | connectionError (msg : String)
  | connectionResetError (msg : String)
  | ioError (msg : String)
  | indexError
  | binasciiError
deriving DecidableEq

/-- Python `isinstance(e, ConnectionError)`: both the wrapped
`ConnectionError` and a raw `ConnectionResetError` qualify. -/
def isConnectionFailure : PyError → Bool
  | .connectionError _ => true
  | .connectionResetError _ => true
  | _ => false

/-- The message text of an exception (Python `str(e)`). -/
def errMsg : PyError → String
  | .connectionError m => m
  | .connectionResetError m => m
  | .ioError m => m
  | .indexError => "list index out of range"
  | .binasciiError => "Invalid base64-encoded string"

/-- Behaviour of one `send_command` round trip: what the control-channel
connect/send step does, and what the results channel yields (a failure, or
the successive chunks returned by `recv` before the peer closes). -/
structure NetStep : Type where
  sendResult : Option SockFail
  recvResult : Except SockFail (List (List Nat))

/-- A fully successful network round trip delivering the given chunks on
the results channel. -/
def goodNet (chunks : List (List Nat)) : NetStep := ⟨none, Except.ok chunks⟩

/-- Whether the output-file write succeeds, and the OS error text when it
does not. -/
structure FsBehavior : Type where
  ok : Bool
  cause : String

/-- A filesystem on which the write succeeds. -/
def fsOk : FsBehavior := ⟨true, ""⟩

/-- The message of the `ConnectionError` raised at line 114 of
`__main__.py`: `f"Failed to send data to \x7bhost\x7d:\x7bport\x7d. Error: \x7be\x7d"`. -/
def sendFailMsg (host : String) (port : Nat) (cause : String) : String :=
  "Failed to send data to " ++ host ++ ":" ++ Nat.repr port ++ ". Error: " ++ cause

/-- The message of the `ConnectionError` raised at line 140 of
`__main__.py`. -/
def recvFailMsg (host : String) (port : Nat) (cause : String) : String :=
  "Failed to receive data from " ++ host ++ ":" ++ Nat.repr port ++ ". Error: " ++ cause

/-- Python `CameraControl`: the three fields set by `__init__`.
(The logger is configuration-only and carries no data relevant here.) -/
structure CameraControl : Type where
  host : String
  control_port : Nat
  results_port : Nat
deriving DecidableEq

/-- `CameraControl.__init__`: stores the three constructor arguments. -/
def CameraControl.init (host : String) (control_port results_port : Nat) : CameraControl :=
  { host := host, control_port := control_port, results_port := results_port }

/-- `CameraControl._send_to_socket(host, port, data)`: on success `sendall`
transmits `data` in full (returned here so the transmitted bytes are
observable); `socket.timeout` and `ConnectionRefusedError` are caught and
re-raised as a `ConnectionError` carrying host, port and cause; any other
error — such as a `ConnectionResetError` — propagates as raised. -/
def send_to_socket (host : String) (port : Nat) (data : List Nat) (res : Option SockFail) :
    Except PyError (List Nat) :=
  match res with
  | none => Except.ok data
  | some (.timeout cause) => Except.error (.connectionError (sendFailMsg host port cause))
  | some (.refused cause) => Except.error (.connectionError (sendFailMsg host port cause))
  | some (.reset cause) => Except.error (.connectionResetError cause)

/-- The `while True: chunk = sock.recv(4096); if not chunk: break;
response += chunk` loop of `_receive_from_socket`: `script` lists the
successive `recv` return values; a zero-length chunk (or exhaustion of the
script, i.e. the peer has closed) stops the loop, and everything read
before it is concatenated. -/
def recvAll : List (List Nat) → List Nat
  | [] => []
  | c :: rest => if c = [] then [] else c ++ recvAll rest

/-- `CameraControl._receive_from_socket(host, port)`: reads until the peer
closes, concatenating chunks; `socket.timeout` and
`ConnectionRefusedError` are wrapped into a `ConnectionError` with host,
port and cause; a `ConnectionResetError` propagates as raised. -/
def receive_from_socket (host : String) (port : Nat)
    (res : Except SockFail (List (List Nat))) : Except PyError (List Nat) :=
  match res with
  | Except.ok chunks => Except.ok (recvAll chunks)
  | Except.error (.timeout cause) => Except.error (.connectionError (recvFailMsg host port cause))
  | Except.error (.refused cause) => Except.error (.connectionError (recvFailMsg host port cause))
  | Except.error (.reset cause) => Except.error (.connectionResetError cause)

/-- The observable outcome of a successful `send_command`: the bytes
written to the control socket and the bytes read from the results
socket. -/
structure SendOutcome : Type where
  sent : List Nat
  response : List Nat
deriving DecidableEq

/-- `CameraControl.send_command(command)`: UTF-8-encode the command, send
it to `(host, control_port)`, then read the full response from
`(host, results_port)`. The second component threads the object state
(no method of the class ever assigns to `self` fields after `__init__`). -/
def send_command (cam : CameraControl) (net : NetStep) (command : String) :
    Except PyError SendOutcome × CameraControl :=
  match send_to_socket cam.host cam.control_port (encodeUtf8 command) net.sendResult with
  | Except.error e => (Except.error e, cam)
  | Except.ok sent =>
    match receive_from_socket cam.host cam.results_port net.recvResult with
    | Except.error e => (Except.error e, cam)
    | Except.ok resp => (Except.ok ⟨sent, resp⟩, cam)

/-- `CameraControl.trigger()`: `send_command("TRIGGER\r\n")`, discarding
the returned bytes. -/
def trigger (cam : CameraControl) (net : NetStep) : Except PyError Unit × CameraControl :=
  match send_command cam net "TRIGGER\r\n" with
  | (Except.error e, cam2) => (Except.error e, cam2)
  | (Except.ok _, cam2) => (Except.ok (), cam2)

/-- Observable outcome of `acquire_image` on the logging/filesystem side:
a file at the given path was written with the given bytes; or the
"No image data found in the response" warning was logged and nothing
written; or an exception was caught at line 74 of `__main__.py` and logged
as "Error processing image data". -/
inductive AcquireResult : Type where
  | saved (path : String) (data : List Nat)
  | warnedNoImage
  | errorLogged (e : PyError)
deriving DecidableEq

/-- The output path `f"./images/output_image_\x7btimestamp\x7d.jpg"` built at
lines 66-70 of `__main__.py`; the timestamp string
(`datetime.now().strftime("%Y%m%d_%H%M%S")`) is a parameter here. -/
def imagePath (ts : String) : String := "./images/output_image_" ++ ts ++ ".jpg"

/-- `CameraControl.save_image_data(image_data, image_path)`: writes the
bytes, or catches the `IOError` from `open`/`write` and re-raises an
`IOError` naming the path and the cause. -/
def save_image_data (fs : FsBehavior) (image_data : List Nat) (image_path : String) :
    Except PyError Unit :=
  if fs.ok then Except.ok ()
  else Except.error (.ioError ("Failed to save image to " ++ image_path ++ ". Error: " ++ fs.cause))

/-- `CameraControl._process_image_data(response)`: inside one
`try ... except Exception` block, take `response.split(b"/9j/")[1]`
(an `IndexError` if the marker is absent), prepend the marker,
base64-decode (`binascii.Error` on malformed data), and save to the
timestamped path (`IOError` on write failure); every one of those
exceptions is caught by the catch-all and only logged. -/
def process_image_data (ts : String) (fs : FsBehavior) (response : List Nat) : AcquireResult :=
  match (splitMarker response)[1]? with
  | none => AcquireResult.errorLogged .indexError
  | some seg =>
    match b64decodePy (marker ++ seg) with
    | none => AcquireResult.errorLogged .binasciiError
    | some image_data =>
      match save_image_data fs image_data (imagePath ts) with
      | Except.ok _ => AcquireResult.saved (imagePath ts) image_data
      | Except.error e => AcquireResult.errorLogged e

/-- `CameraControl.acquire_image()`: trigger the camera (`netT` is the
behaviour of that round trip), request `getresultimage` (`netG`), and if
the marker `b"/9j/"` occurs in the response process it, else log the
no-image warning. Network failures from either round trip propagate. -/
def acquire_image (cam : CameraControl) (netT netG : NetStep) (ts : String) (fs : FsBehavior) :
    Except PyError AcquireResult × CameraControl :=
  match trigger cam netT with
  | (Except.error e, cam2) => (Except.error e, cam2)
  | (Except.ok _, cam2) =>
    match send_command cam2 netG "getresultimage\r\n" with
    | (Except.error e, cam3) => (Except.error e, cam3)
    | (Except.ok out, cam3) =>
      if containsMarker out.response then (Except.ok (process_image_data ts fs out.response), cam3)
      else (Except.ok AcquireResult.warnedNoImage, cam3)

/-- The action `main` dispatches to. -/
inductive MainAction : Type where
  | runTrigger
  | runAcquire
  | printUsage
deriving DecidableEq

/-- The `if args.trigger: ... elif args.acquire: ... else: ...` dispatch of
`main` (lines 192-197 of `__main__.py`). -/
def dispatch (triggerFlag acquireFlag : Bool) : MainAction :=
  if triggerFlag then MainAction.runTrigger
  else if acquireFlag then MainAction.runAcquire
  else MainAction.printUsage

/-- Modelled from the spec words of C1 (for the refinement comparison
only): "the sub-sequence from the first occurrence of the marker to the
end of the response". -/
def specMarkerToEnd (response : List Nat) : Option (List Nat) :=
  (findSub marker response).map (fun p => marker ++ p.2)

/-- The first segment of a Python `split` on the marker: everything before
the first occurrence, or the whole list when the marker is absent. Used to
describe `split(b"/9j/")[1]`: after the first marker has been removed,
`[1]` is the head segment of the remainder. -/
def headSeg (xs : List Nat) : List Nat :=
  match findSub marker xs with
  | none => xs
  | some (b, _) => b

/-- Sanity: the marker is the UTF-8 encoding of the string literal. -/
theorem marker_eq_encode : marker = encodeUtf8 "/9j/" := by decide

/-- `listStarts a b` holds exactly when `b` extends `a`. -/
theorem listStarts_iff {α : Type} [DecidableEq α] (a : List α) :
    ∀ b, listStarts a b = true ↔ ∃ t, b = a ++ t := by
  induction a with
  | nil => intro b; simp [listStarts]
  | cons x as ih =>
    intro b
    cases b with
    | nil => simp [listStarts]
    | cons y bs =>
      by_cases h : x = y
      · subst h; simp [listStarts, ih bs]
      · simp [listStarts, h, Ne.symm h]

/-- A successful `findSub` decomposes the buffer around the separator. -/
theorem findSub_decomp {α : Type} [DecidableEq α] (sep : List α) :
    ∀ xs b a, findSub sep xs = some (b, a) → xs = b ++ sep ++ a := by
  intro xs
  induction xs with
  | nil => intro b a h; simp [findSub] at h
  | cons x xs ih =>
    intro b a h
    unfold findSub at h
    by_cases hp : listStarts sep (x :: xs) = true
    · rw [if_pos hp] at h
      obtain ⟨t, ht⟩ := (listStarts_iff sep (x :: xs)).mp hp
      rw [ht, List.drop_left] at h
      injection h with h2
      rw [Prod.mk.injEq] at h2
      obtain ⟨hb, ha⟩ := h2
      subst hb
      subst ha
      rw [ht]
      rfl
    · rw [if_neg hp] at h
      cases hfs : findSub sep xs with
      | none => rw [hfs] at h; simp at h
      | some p =>
        obtain ⟨b1, a1⟩ := p
        rw [hfs] at h
        have h3 : some (x :: b1, a1) = some (b, a) := h
        injection h3 with h4
        rw [Prod.mk.injEq] at h4
        obtain ⟨hb, ha⟩ := h4
        rw [← hb, ← ha, ih b1 a1 hfs]
        simp

/-- With a non-empty separator, the remainder after a found separator is
strictly shorter than the buffer. -/
theorem findSub_shrinks {α : Type} [DecidableEq α] (sep : List α) (hs : sep ≠ [])
    (xs b a : List α) (h : findSub sep xs = some (b, a)) : a.length < xs.length := by
  have hd := findSub_decomp sep xs b a h
  have hl : 0 < sep.length := List.length_pos.mpr hs
  rw [hd]
  simp only [List.length_append]
  omega

/-- Any sufficiently large fuel computes the same split. -/
theorem splitFrom_congr : ∀ (f g : Nat) (xs : List Nat),
    xs.length < f → xs.length < g → splitFrom f xs = splitFrom g xs := by
  intro f
  induction f with
  | zero => intro g xs hf; exact absurd hf (Nat.not_lt_zero _)
  | succ f ih =>
    intro g xs hf hg
    cases g with
    | zero => exact absurd hg (Nat.not_lt_zero _)
    | succ g =>
      simp only [splitFrom]
      cases hfs : findSub marker xs with
      | none => rfl
      | some p =>
        obtain ⟨b, a⟩ := p
        have ha : a.length < xs.length := findSub_shrinks marker (by decide) xs b a hfs
        exact congrArg (b :: ·) (ih g a (by omega) (by omega))

/-- `splitMarker` satisfies the defining recurrence of Python's
`bytes.split`: the segment before the first separator, then the split of
what follows it. This discharges the fuel in `splitFrom`. -/
theorem splitMarker_spec (xs : List Nat) :
    splitMarker xs = match findSub marker xs with
      | none => [xs]
      | some (b, a) => b :: splitMarker a := by
  unfold splitMarker
  simp only [splitFrom]
  cases hfs : findSub marker xs with
  | none => rfl
  | some p =>
    obtain ⟨b, a⟩ := p
    have ha : a.length < xs.length := findSub_shrinks marker (by decide) xs b a hfs
    exact congrArg (b :: ·) (splitFrom_congr xs.length (a.length + 1) a (by omega) (by omega))

/-- `response.split(b"/9j/")[1]`, described without `split`: when the
marker first occurs with remainder `rest`, element 1 of the split is the
part of `rest` before the next marker occurrence (all of `rest` when the
marker does not occur again). -/
theorem splitMarker_get1 (xs b rest : List Nat) (h : findSub marker xs = some (b, rest)) :
    (splitMarker xs)[1]? = some (headSeg rest) := by
  rw [splitMarker_spec xs, h]
  simp only [List.getElem?_cons_succ]
  rw [splitMarker_spec rest]
  unfold headSeg
  cases hfs : findSub marker rest with
  | none => simp
  | some p => obtain ⟨b2, a2⟩ := p; simp

/-- A buffer that contains `sep` still contains it after extending on the
left by one element. -/
theorem containsSub_cons {α : Type} [DecidableEq α] (sep : List α) (c : α) (xs : List α)
    (h : containsSub sep xs = true) : containsSub sep (c :: xs) = true := by
  unfold containsSub at h ⊢
  unfold findSub
  by_cases hp : listStarts sep (c :: xs) = true
  · rw [if_pos hp]; rfl
  · rw [if_neg hp]
    cases hfs : findSub sep xs with
    | none => rw [hfs] at h; simp at h
    | some p => rfl

/-- A buffer that contains `sep` still contains it after extending on the
left. -/
theorem containsSub_append_left {α : Type} [DecidableEq α] (sep : List α) :
    ∀ (x t : List α), containsSub sep t = true → containsSub sep (x ++ t) = true := by
  intro x
  induction x with
  | nil => intro t h; simpa using h
  | cons c x ih =>
    intro t h
    simpa using containsSub_cons sep c (x ++ t) (ih t h)

/-- A buffer whose head position starts with `sep` is found by `findSub`. -/
theorem findSub_isSome_of_starts {α : Type} [DecidableEq α] (sep : List α) (x : α)
    (xs : List α) (hp : listStarts sep (x :: xs) = true) :
    (findSub sep (x :: xs)).isSome = true := by
  unfold findSub
  rw [if_pos hp]
  rfl

/-- A non-empty separator is found at the head of `sep ++ t`. -/
theorem containsSub_here {α : Type} [DecidableEq α] (sep t : List α) (hs : sep ≠ []) :
    containsSub sep (sep ++ t) = true := by
  cases sep with
  | nil => exact absurd rfl hs
  | cons x as =>
    have hp : listStarts (x :: as) (x :: (as ++ t)) = true :=
      (listStarts_iff (x :: as) (x :: (as ++ t))).mpr ⟨t, rfl⟩
    have hshape : (x :: as) ++ t = x :: (as ++ t) := rfl
    unfold containsSub
    rw [hshape]
    exact findSub_isSome_of_starts (x :: as) x (as ++ t) hp

/-- Any list of the shape `x ++ a ++ t` with `x` non-empty contains `a`
as a contiguous sub-sequence. -/
theorem containsSub_part {α : Type} [DecidableEq α] (a x t : List α) (hx : x ≠ []) :
    containsSub a (x ++ a ++ t) = true := by
  by_cases ha : a = []
  · subst ha
    cases x with
    | nil => exact absurd rfl hx
    | cons c xs => simp [containsSub, findSub, listStarts]
  · rw [List.append_assoc]
    exact containsSub_append_left a x (a ++ t) (containsSub_here a t ha)

/-- `send_command` never assigns to the object's fields. -/
theorem send_command_state (cam : CameraControl) (net : NetStep) (cmd : String) :
    (send_command cam net cmd).2 = cam := by
  unfold send_command
  cases hs : send_to_socket cam.host cam.control_port (encodeUtf8 cmd) net.sendResult with
  | error e => rfl
  | ok s =>
    cases hr : receive_from_socket cam.host cam.results_port net.recvResult with
    | error e => rfl
    | ok r => rfl

/-- `trigger` never assigns to the object's fields. -/
theorem trigger_state (cam : CameraControl) (net : NetStep) :
    (trigger cam net).2 = cam := by
  unfold trigger
  have h := send_command_state cam net "TRIGGER\r\n"
  cases hs : send_command cam net "TRIGGER\r\n" with
  | mk res cam2 =>
    rw [hs] at h
    cases res with
    | error e => exact h
    | ok o => exact h

/-- `acquire_image` never assigns to the object's fields. -/
theorem acquire_image_state (cam : CameraControl) (netT netG : NetStep) (ts : String)
    (fs : FsBehavior) : (acquire_image cam netT netG ts fs).2 = cam := by
  unfold acquire_image
  split
  next e cam2 h =>
    have h2 := trigger_state cam netT
    rw [h] at h2
    exact h2
  next o cam2 h =>
    have h2 := trigger_state cam netT
    rw [h] at h2
    split
    next e2 cam3 h3 =>
      have h4 := send_command_state cam2 netG "getresultimage\r\n"
      rw [h3] at h4
      exact h4.trans h2
    next out cam3 h3 =>
      have h4 := send_command_state cam2 netG "getresultimage\r\n"
      rw [h3] at h4
      by_cases hm : containsMarker out.response = true
      · rw [if_pos hm]
        exact h4.trans h2
      · rw [if_neg hm]
        exact h4.trans h2

/-- A single-chunk script delivers exactly that chunk (an empty chunk is
an immediate close, so the result is again the chunk itself). -/
theorem recvAll_single (resp : List Nat) : recvAll [resp] = resp := by
  cases resp with
  | nil => rfl
  | cons c r => simp [recvAll]

/-- Reference concatenation of a chunk list. -/
def concatChunks : List (List Nat) → List Nat
  | [] => []
  | c :: rest => c ++ concatChunks rest

/-- When every chunk is non-empty, the receive loop reads the whole script
and returns the concatenation of the chunks in order. -/
theorem recvAll_eq_concat (chunks : List (List Nat)) (h : ∀ c ∈ chunks, c ≠ []) :
    recvAll chunks = concatChunks chunks := by
  induction chunks with
  | nil => rfl
  | cons c rest ih =>
    have hc : c ≠ [] := h c (List.mem_cons_self c rest)
    unfold recvAll concatChunks
    rw [if_neg hc]
    rw [ih (fun d hd => h d (List.mem_cons_of_mem c hd))]

/-- `acquire_image` under fully successful networking: trigger round trip
with script `ct`, then the `getresultimage` response is the concatenation
of `chunks`, dispatched on the marker test. -/
theorem acquire_image_good_eq (cam : CameraControl) (ct chunks : List (List Nat))
    (ts : String) (fs : FsBehavior) :
    acquire_image cam (goodNet ct) (goodNet chunks) ts fs =
      if containsMarker (recvAll chunks) = true
      then (Except.ok (process_image_data ts fs (recvAll chunks)), cam)
      else (Except.ok AcquireResult.warnedNoImage, cam) := rfl

/-- A found marker makes the membership test true. -/
theorem containsMarker_of_findSub (resp b rest : List Nat)
    (h : findSub marker resp = some (b, rest)) : containsMarker resp = true := by
  unfold containsMarker containsSub
  rw [h]
  rfl

/-- Reduction of `_process_image_data` when element 1 of the split and the
base64 decode are known. -/
theorem process_image_data_eq (ts : String) (fs : FsBehavior) (resp seg d : List Nat)
    (h2 : (splitMarker resp)[1]? = some seg)
    (h3 : b64decodePy (marker ++ seg) = some d) :
    process_image_data ts fs resp =
      match save_image_data fs d (imagePath ts) with
      | Except.ok _ => AcquireResult.saved (imagePath ts) d
      | Except.error e => AcquireResult.errorLogged e := by
  unfold process_image_data
  rw [h2]
  simp only []
  rw [h3]

end Zebra

namespace Zebra

/-- Response used against C1: the marker occurs twice,
`b"/9j/AAAA/9j/AAAA"`. -/
def c1resp : List Nat := [47, 57, 106, 47, 65, 65, 65, 65, 47, 57, 106, 47, 65, 65, 65, 65]

/-- C1 fails as stated: on a response in which the marker bytes occur a
second time, the code does not decode the sub-sequence from the first
marker to the end of the response. On `b"/9j/AAAA/9j/AAAA"` the
marker-to-end sub-sequence is the whole response and base64-decodes to
twelve bytes, but `split(b"/9j/")[1]` keeps only the part between the
first and second markers, so `acquire_image` decodes `b"/9j/AAAA"` and
writes six bytes instead. -/
theorem claim_C1_counterexample :
    containsMarker c1resp = true ∧
    specMarkerToEnd c1resp = some c1resp ∧
    b64decodePy c1resp = some [255, 216, 255, 0, 0, 0, 255, 216, 255, 0, 0, 0] ∧
    acquire_image (CameraControl.init "camera" 107 25250) (goodNet []) (goodNet [c1resp])
        "20250101_120000" fsOk
      = (Except.ok (AcquireResult.saved (imagePath "20250101_120000") [255, 216, 255, 0, 0, 0]),
         CameraControl.init "camera" 107 25250) ∧
    ([255, 216, 255, 0, 0, 0] : List Nat) ≠ [255, 216, 255, 0, 0, 0, 255, 216, 255, 0, 0, 0] :=
  ⟨by decide, by decide, by decide, by rfl, by decide⟩

/-- C1 (amended): for every response in which the marker occurs,
`acquire_image` extracts the sub-sequence from the first occurrence of the
marker up to (but not including) the next occurrence of the marker — to
the end of the response only when the marker occurs exactly once — prepends
the marker, base64-decodes exactly that sub-sequence, and (when the decode
succeeds and the write succeeds) writes the decoded bytes to the output
file. -/
theorem claim_C1_amended (cam : CameraControl) (ct : List (List Nat)) (ts : String)
    (resp b rest d : List Nat)
    (h1 : findSub marker resp = some (b, rest))
    (h2 : b64decodePy (marker ++ headSeg rest) = some d) :
    acquire_image cam (goodNet ct) (goodNet [resp]) ts fsOk
      = (Except.ok (AcquireResult.saved (imagePath ts) d), cam) := by
  have hm := containsMarker_of_findSub resp b rest h1
  have hseg := splitMarker_get1 resp b rest h1
  rw [acquire_image_good_eq, recvAll_single, if_pos hm,
    process_image_data_eq ts fsOk resp (headSeg rest) d hseg h2]
  rfl

/-- Witness for C1 (amended): `b"garbage/9j/AAAA=="` has a single marker
occurrence; the decoded payload `FF D8 FF 00 00 00` is written. -/
theorem claim_C1_amended_witness :
    acquire_image (CameraControl.init "camera" 107 25250) (goodNet [])
        (goodNet [encodeUtf8 "garbage/9j/AAAA=="]) "20250101_120000" fsOk
      = (Except.ok (AcquireResult.saved (imagePath "20250101_120000") [255, 216, 255, 0, 0, 0]),
         CameraControl.init "camera" 107 25250) :=
  claim_C1_amended (CameraControl.init "camera" 107 25250) [] "20250101_120000"
    (encodeUtf8 "garbage/9j/AAAA==") (encodeUtf8 "garbage") (encodeUtf8 "AAAA==")
    [255, 216, 255, 0, 0, 0] (by decide) (by decide)

/-- C2: whenever the marker bytes are absent from the response,
`acquire_image` logs the no-image warning, writes no file, and returns
normally (an `Except.ok`, not a raised exception). -/
theorem claim_C2 (cam : CameraControl) (ct : List (List Nat)) (ts : String)
    (fs : FsBehavior) (resp : List Nat) (h : containsMarker resp = false) :
    acquire_image cam (goodNet ct) (goodNet [resp]) ts fs
      = (Except.ok AcquireResult.warnedNoImage, cam) := by
  rw [acquire_image_good_eq, recvAll_single, h]
  rfl

/-- Witness for C2 at the response `b"hi"`. -/
theorem claim_C2_witness :
    containsMarker [104, 105] = false ∧
    acquire_image (CameraControl.init "camera" 107 25250) (goodNet []) (goodNet [[104, 105]])
        "20250101_120000" fsOk
      = (Except.ok AcquireResult.warnedNoImage, CameraControl.init "camera" 107 25250) :=
  ⟨by decide,
   claim_C2 (CameraControl.init "camera" 107 25250) [] "20250101_120000" fsOk [104, 105]
     (by decide)⟩

/-- C3: when the marker is present but the base64 decode of the extracted
data fails (`binascii.Error`), the failure is caught inside
`_process_image_data` and logged; `acquire_image` completes with an
`Except.ok`, raising nothing to its caller. -/
theorem claim_C3 (cam : CameraControl) (ct : List (List Nat)) (ts : String)
    (fs : FsBehavior) (resp seg : List Nat)
    (h1 : containsMarker resp = true)
    (h2 : (splitMarker resp)[1]? = some seg)
    (h3 : b64decodePy (marker ++ seg) = none) :
    acquire_image cam (goodNet ct) (goodNet [resp]) ts fs
      = (Except.ok (AcquireResult.errorLogged PyError.binasciiError), cam) := by
  rw [acquire_image_good_eq, recvAll_single, if_pos h1]
  unfold process_image_data
  rw [h2]
  simp only []
  rw [h3]

/-- Witness for C3 at the response `b"/9j/A"`, whose extracted data has
five base64 characters and cannot be decoded. -/
theorem claim_C3_witness :
    containsMarker [47, 57, 106, 47, 65] = true ∧
    b64decodePy (marker ++ [65]) = none ∧
    acquire_image (CameraControl.init "camera" 107 25250) (goodNet [])
        (goodNet [[47, 57, 106, 47, 65]]) "20250101_120000" fsOk
      = (Except.ok (AcquireResult.errorLogged PyError.binasciiError),
         CameraControl.init "camera" 107 25250) :=
  ⟨by decide, by decide,
   claim_C3 (CameraControl.init "camera" 107 25250) [] "20250101_120000" fsOk
     [47, 57, 106, 47, 65] [65] (by decide) (by decide) (by decide)⟩

/-- Response used against C4: `b"/9j/AAAA"`, which decodes successfully. -/
def c4resp : List Nat := [47, 57, 106, 47, 65, 65, 65, 65]

/-- C4 fails as stated: a file-write failure does NOT propagate out of
`acquire_image`. `save_image_data` does raise an `IOError` to its caller
`_process_image_data`, but the `except Exception` catch-all there (lines
62-75) catches it and only logs it; `acquire_image` returns normally
(`Except.ok`) even though the write failed. -/
theorem claim_C4_counterexample :
    containsMarker c4resp = true ∧
    b64decodePy c4resp = some [255, 216, 255, 0, 0, 0] ∧
    process_image_data "20250101_120000" fsOk c4resp
      = AcquireResult.saved (imagePath "20250101_120000") [255, 216, 255, 0, 0, 0] ∧
    save_image_data ⟨false, "Permission denied"⟩ [255, 216, 255, 0, 0, 0]
        (imagePath "20250101_120000")
      = Except.error (PyError.ioError
          "Failed to save image to ./images/output_image_20250101_120000.jpg. Error: Permission denied") ∧
    acquire_image (CameraControl.init "camera" 107 25250) (goodNet []) (goodNet [c4resp])
        "20250101_120000" ⟨false, "Permission denied"⟩
      = (Except.ok (AcquireResult.errorLogged (PyError.ioError
          "Failed to save image to ./images/output_image_20250101_120000.jpg. Error: Permission denied")),
         CameraControl.init "camera" 107 25250) :=
  ⟨by decide, by decide, by rfl, by rfl, by rfl⟩

/-- C4 (amended): when the output file cannot be written, the `IOError` is
surfaced by `save_image_data` to its caller `_process_image_data`, but the
catch-all there swallows it exactly like a decode failure: the error is
logged and `acquire_image` completes without raising to its caller. -/
theorem claim_C4_amended (cam : CameraControl) (ct : List (List Nat)) (ts cause : String)
    (resp seg d : List Nat)
    (h1 : containsMarker resp = true)
    (h2 : (splitMarker resp)[1]? = some seg)
    (h3 : b64decodePy (marker ++ seg) = some d) :
    acquire_image cam (goodNet ct) (goodNet [resp]) ts ⟨false, cause⟩
      = (Except.ok (AcquireResult.errorLogged (PyError.ioError
          ("Failed to save image to " ++ imagePath ts ++ ". Error: " ++ cause))), cam) := by
  rw [acquire_image_good_eq, recvAll_single, if_pos h1,
    process_image_data_eq ts ⟨false, cause⟩ resp seg d h2 h3]
  rfl

/-- Witness for C4 (amended) at `b"/9j/AAAA"` with a failing write. -/
theorem claim_C4_amended_witness :
    acquire_image (CameraControl.init "camera" 107 25250) (goodNet []) (goodNet [c4resp])
        "20250101_120000" ⟨false, "Permission denied"⟩
      = (Except.ok (AcquireResult.errorLogged (PyError.ioError
          ("Failed to save image to " ++ imagePath "20250101_120000" ++ ". Error: " ++ "Permission denied"))),
         CameraControl.init "camera" 107 25250) :=
  claim_C4_amended (CameraControl.init "camera" 107 25250) [] "20250101_120000"
    "Permission denied" c4resp [65, 65, 65, 65] [255, 216, 255, 0, 0, 0]
    (by decide) (by decide) (by decide)

/-- Appending on the right preserves non-emptiness. -/
theorem append_ne_nil_left {α : Type} (a b : List α) (h : a ≠ []) : a ++ b ≠ [] := by
  cases a with
  | nil => exact absurd rfl h
  | cons x xs => simp

/-- Character-level decomposition of the send-failure message. -/
theorem sendFailMsg_data (host : String) (port : Nat) (cause : String) :
    (sendFailMsg host port cause).data
      = "Failed to send data to ".data ++ host.data ++ ":".data ++ (Nat.repr port).data
        ++ ". Error: ".data ++ cause.data := by
  unfold sendFailMsg
  simp [String.data_append]

/-- Character-level decomposition of the receive-failure message. -/
theorem recvFailMsg_data (host : String) (port : Nat) (cause : String) :
    (recvFailMsg host port cause).data
      = "Failed to receive data from ".data ++ host.data ++ ":".data ++ (Nat.repr port).data
        ++ ". Error: ".data ++ cause.data := by
  unfold recvFailMsg
  simp [String.data_append]

/-- The wrapped send-failure message identifies the host, the port and the
underlying cause, each as a contiguous sub-sequence. -/
theorem sendFailMsg_identifies (host : String) (port : Nat) (cause : String) :
    containsSub host.data (sendFailMsg host port cause).data = true ∧
    containsSub (Nat.repr port).data (sendFailMsg host port cause).data = true ∧
    containsSub cause.data (sendFailMsg host port cause).data = true := by
  rw [sendFailMsg_data]
  refine ⟨?_, ?_, ?_⟩
  · have h := containsSub_part host.data "Failed to send data to ".data
      (":".data ++ (Nat.repr port).data ++ ". Error: ".data ++ cause.data) (by decide)
    simpa [List.append_assoc] using h
  · have hx : "Failed to send data to ".data ++ host.data ++ ":".data ≠ ([] : List Char) :=
      append_ne_nil_left _ _ (append_ne_nil_left _ _ (by decide))
    have h := containsSub_part (Nat.repr port).data
      ("Failed to send data to ".data ++ host.data ++ ":".data)
      (". Error: ".data ++ cause.data) hx
    simpa [List.append_assoc] using h
  · have hx : "Failed to send data to ".data ++ host.data ++ ":".data ++ (Nat.repr port).data
        ++ ". Error: ".data ≠ ([] : List Char) :=
      append_ne_nil_left _ _ (append_ne_nil_left _ _ (append_ne_nil_left _ _
        (append_ne_nil_left _ _ (by decide))))
    have h := containsSub_part cause.data
      ("Failed to send data to ".data ++ host.data ++ ":".data ++ (Nat.repr port).data
        ++ ". Error: ".data) [] hx
    simpa [List.append_assoc] using h

/-- The wrapped receive-failure message identifies the host, the port and
the underlying cause, each as a contiguous sub-sequence. -/
theorem recvFailMsg_identifies (host : String) (port : Nat) (cause : String) :
    containsSub host.data (recvFailMsg host port cause).data = true ∧
    containsSub (Nat.repr port).data (recvFailMsg host port cause).data = true ∧
    containsSub cause.data (recvFailMsg host port cause).data = true := by
  rw [recvFailMsg_data]
  refine ⟨?_, ?_, ?_⟩
  · have h := containsSub_part host.data "Failed to receive data from ".data
      (":".data ++ (Nat.repr port).data ++ ". Error: ".data ++ cause.data) (by decide)
    simpa [List.append_assoc] using h
  · have hx : "Failed to receive data from ".data ++ host.data ++ ":".data ≠ ([] : List Char) :=
      append_ne_nil_left _ _ (append_ne_nil_left _ _ (by decide))
    have h := containsSub_part (Nat.repr port).data
      ("Failed to receive data from ".data ++ host.data ++ ":".data)
      (". Error: ".data ++ cause.data) hx
    simpa [List.append_assoc] using h
  · have hx : "Failed to receive data from ".data ++ host.data ++ ":".data
        ++ (Nat.repr port).data ++ ". Error: ".data ≠ ([] : List Char) :=
      append_ne_nil_left _ _ (append_ne_nil_left _ _ (append_ne_nil_left _ _
        (append_ne_nil_left _ _ (by decide))))
    have h := containsSub_part cause.data
      ("Failed to receive data from ".data ++ host.data ++ ":".data ++ (Nat.repr port).data
        ++ ". Error: ".data) [] hx
    simpa [List.append_assoc] using h

/-- C5 fails as stated: when the peer resets the connection, the code's
`except (socket.timeout, ConnectionRefusedError)` clause does not match,
so the raw `ConnectionResetError` propagates; the surfaced error's message
is only the OS text and identifies neither the host nor the port. -/
theorem claim_C5_counterexample :
    send_command (CameraControl.init "192.168.1.200" 107 25250)
        ⟨some (SockFail.reset "Connection reset by peer"), Except.ok []⟩ "TRIGGER\r\n"
      = (Except.error (PyError.connectionResetError "Connection reset by peer"),
         CameraControl.init "192.168.1.200" 107 25250) ∧
    containsSub "192.168.1.200".data
        (errMsg (PyError.connectionResetError "Connection reset by peer")).data = false ∧
    containsSub "107".data
        (errMsg (PyError.connectionResetError "Connection reset by peer")).data = false :=
  ⟨by rfl, by decide, by decide⟩

/-- C5 (amended): when the connect, send, or receive step times out or the
peer refuses the connection — on either channel — `send_command` fails with
a wrapped `ConnectionError` whose message identifies the host, the port and
the underlying cause, and the single failure is surfaced to the caller at
once (the code attempts no retry). When the peer resets the connection,
however, the raw `ConnectionResetError` (still a `ConnectionError` by
subclassing) propagates with only the OS message, without host or port
context. -/
theorem claim_C5_amended (cam : CameraControl) (cmd cause : String)
    (recvB : Except SockFail (List (List Nat))) :
    send_command cam ⟨some (SockFail.timeout cause), recvB⟩ cmd
      = (Except.error (PyError.connectionError (sendFailMsg cam.host cam.control_port cause)),
         cam) ∧
    send_command cam ⟨some (SockFail.refused cause), recvB⟩ cmd
      = (Except.error (PyError.connectionError (sendFailMsg cam.host cam.control_port cause)),
         cam) ∧
    send_command cam ⟨none, Except.error (SockFail.timeout cause)⟩ cmd
      = (Except.error (PyError.connectionError (recvFailMsg cam.host cam.results_port cause)),
         cam) ∧
    send_command cam ⟨none, Except.error (SockFail.refused cause)⟩ cmd
      = (Except.error (PyError.connectionError (recvFailMsg cam.host cam.results_port cause)),
         cam) ∧
    send_command cam ⟨some (SockFail.reset cause), recvB⟩ cmd
      = (Except.error (PyError.connectionResetError cause), cam) ∧
    send_command cam ⟨none, Except.error (SockFail.reset cause)⟩ cmd
      = (Except.error (PyError.connectionResetError cause), cam) ∧
    isConnectionFailure (PyError.connectionError (sendFailMsg cam.host cam.control_port cause))
      = true ∧
    isConnectionFailure (PyError.connectionResetError cause) = true ∧
    containsSub cam.host.data (sendFailMsg cam.host cam.control_port cause).data = true ∧
    containsSub (Nat.repr cam.control_port).data
      (sendFailMsg cam.host cam.control_port cause).data = true ∧
    containsSub cause.data (sendFailMsg cam.host cam.control_port cause).data = true ∧
    containsSub cam.host.data (recvFailMsg cam.host cam.results_port cause).data = true ∧
    containsSub (Nat.repr cam.results_port).data
      (recvFailMsg cam.host cam.results_port cause).data = true ∧
    containsSub cause.data (recvFailMsg cam.host cam.results_port cause).data = true := by
  obtain ⟨hs1, hs2, hs3⟩ := sendFailMsg_identifies cam.host cam.control_port cause
  obtain ⟨hr1, hr2, hr3⟩ := recvFailMsg_identifies cam.host cam.results_port cause
  exact ⟨rfl, rfl, rfl, rfl, rfl, rfl, rfl, rfl, hs1, hs2, hs3, hr1, hr2, hr3⟩

/-- C6: for a results-channel script of non-empty chunks followed by the
peer closing the stream, `send_command` returns exactly the concatenation
of the chunks in order; the zero-length read (close) is the only
completion signal. -/
theorem claim_C6 (cam : CameraControl) (cmd : String) (chunks : List (List Nat))
    (h : ∀ c ∈ chunks, c ≠ []) :
    send_command cam (goodNet chunks) cmd
      = (Except.ok ⟨encodeUtf8 cmd, concatChunks chunks⟩, cam) := by
  have hstep : send_command cam (goodNet chunks) cmd
      = (Except.ok ⟨encodeUtf8 cmd, recvAll chunks⟩, cam) := rfl
  rw [hstep, recvAll_eq_concat chunks h]

/-- Witness for C6 with the chunk script `[[1, 2], [3]]`. -/
theorem claim_C6_witness :
    send_command (CameraControl.init "camera" 107 25250) (goodNet [[1, 2], [3]])
        "getresultimage\r\n"
      = (Except.ok ⟨encodeUtf8 "getresultimage\r\n", concatChunks [[1, 2], [3]]⟩,
         CameraControl.init "camera" 107 25250) ∧
    concatChunks [[1, 2], [3]] = [1, 2, 3] :=
  ⟨claim_C6 (CameraControl.init "camera" 107 25250) "getresultimage\r\n" [[1, 2], [3]]
     (by decide), by decide⟩

/-- C7: every call to `trigger` hands the control channel exactly the
bytes `b"TRIGGER\r\n"` (the UTF-8 encoding of the fixed command), for any
object state and any delivered response, and discards the bytes returned
by `send_command` (its successful result is the bare unit). -/
theorem claim_C7 (cam : CameraControl) (chunks : List (List Nat)) :
    send_command cam (goodNet chunks) "TRIGGER\r\n"
      = (Except.ok ⟨[84, 82, 73, 71, 71, 69, 82, 13, 10], recvAll chunks⟩, cam) ∧
    encodeUtf8 "TRIGGER\r\n" = [84, 82, 73, 71, 71, 69, 82, 13, 10] ∧
    trigger cam (goodNet chunks) = (Except.ok (), cam) :=
  ⟨by rfl, by decide, by rfl⟩

/-- C8: the `Endpoint` fields (host, control_port, results_port) equal the
constructor arguments and are never mutated: every operation returns the
object state unchanged. -/
theorem claim_C8 (host0 : String) (cp rp : Nat) (net n1 n2 : NetStep) (cmd ts : String)
    (fs : FsBehavior) :
    (CameraControl.init host0 cp rp).host = host0 ∧
    (CameraControl.init host0 cp rp).control_port = cp ∧
    (CameraControl.init host0 cp rp).results_port = rp ∧
    (send_command (CameraControl.init host0 cp rp) net cmd).2 = CameraControl.init host0 cp rp ∧
    (trigger (CameraControl.init host0 cp rp) net).2 = CameraControl.init host0 cp rp ∧
    (acquire_image (CameraControl.init host0 cp rp) n1 n2 ts fs).2
      = CameraControl.init host0 cp rp :=
  ⟨rfl, rfl, rfl, send_command_state (CameraControl.init host0 cp rp) net cmd,
   trigger_state (CameraControl.init host0 cp rp) net,
   acquire_image_state (CameraControl.init host0 cp rp) n1 n2 ts fs⟩

/-- C9: when both the `--trigger` and `--acquire` flags are supplied,
`main`'s `if args.trigger: ... elif args.acquire: ...` chain runs only the
trigger action; `acquire_image` is not invoked and no exclusivity error is
raised. -/
theorem claim_C9 :
    dispatch true true = MainAction.runTrigger ∧
    dispatch true true ≠ MainAction.runAcquire ∧
    dispatch true false = MainAction.runTrigger ∧
    dispatch false true = MainAction.runAcquire := by decide

/-- C10: when the peer closes the results channel immediately (the first
read is zero-length), `send_command` returns the empty byte sequence, and
`acquire_image` takes the no-image branch: warning logged, no file
written, no exception raised. -/
theorem claim_C10 (cam : CameraControl) (ct : List (List Nat)) (cmd ts : String)
    (fs : FsBehavior) :
    receive_from_socket cam.host cam.results_port (Except.ok [[]]) = Except.ok [] ∧
    send_command cam (goodNet [[]]) cmd = (Except.ok ⟨encodeUtf8 cmd, []⟩, cam) ∧
    acquire_image cam (goodNet ct) (goodNet [[]]) ts fs
      = (Except.ok AcquireResult.warnedNoImage, cam) :=
  ⟨rfl, rfl, rfl⟩

end Zebra
